import Mathlib

/-!
Shallow embedding of the query-routing and hybrid-retrieval core of the
AI-search repository (`total_rag_test.py` and `agent_JH.py`), together with
theorems about the routing, merging, caching and rendering behaviour.
-/

namespace AISearch

/-- Whether the first character list occurs contiguously inside the
second (checked at every suffix). -/
def subListOf (needle : List Char) : List Char → Bool
  | [] => needle.isEmpty
  | c :: rest => needle.isPrefixOf (c :: rest) || subListOf needle rest

/-- Python's substring test (the expression written as membership of one
string in another): the needle's character list occurs contiguously in the
haystack's character list. -/
def pyIn (needle haystack : String) : Bool :=
  subListOf needle.data haystack.data

/-- Python's lowercasing of a query string, character by character. -/
def pyLower (s : String) : String :=
  String.mk (s.data.map Char.toLower)

/-- Assembly-domain keyword table of
`total_rag_test.HybridInternalExternalRAG._determine_search_strategy`. -/
def assembly_keywords : List String :=
  ["국회", "의원", "국정감사", "국감", "회의록", "본회의", "위원회",
   "법안", "예산", "정부", "장관", "대통령", "의장", "국회의원"]

/-- Recency keyword table of `_determine_search_strategy`. -/
def current_keywords : List String :=
  ["최근", "현재", "지금", "오늘", "이번", "올해", "2024", "2025",
   "최신", "동향", "트렌드", "뉴스", "소식"]

/-- General/definitional keyword table of `_determine_search_strategy`. -/
def general_keywords : List String :=
  ["설명", "정의", "의미", "개념", "역사", "배경", "원인", "이유"]

/-- Assembly-domain keyword table of `agent_JH.strategy_analyzer_tool`
(it additionally contains the keyword 발의안). -/
def assembly_keywords_agent : List String :=
  ["국회", "의원", "국정감사", "국감", "회의록", "본회의", "위원회",
   "법안", "예산", "정부", "장관", "대통령", "의장", "국회의원", "발의안"]

/-- Number of keywords of the table occurring as substrings of the
lowercased query; embeds the generator-sum counting idiom used by both
classifiers. -/
def keywordScore (keywords : List String) (query : String) : Nat :=
  keywords.countP (fun keyword => pyIn keyword (pyLower query))

/-- `total_rag_test.HybridInternalExternalRAG._determine_search_strategy`. -/
def _determine_search_strategy (query : String) : String :=
  if 2 ≤ keywordScore assembly_keywords query then "internal_only"
  else if 1 ≤ keywordScore current_keywords query then "external_priority"
  else if 1 ≤ keywordScore general_keywords query then "hybrid_balanced"
  else "hybrid_internal_priority"

/-- `agent_JH.strategy_analyzer_tool` (same decision procedure, with the
agent's assembly keyword table). -/
def strategy_analyzer_tool (query : String) : String :=
  if 2 ≤ keywordScore assembly_keywords_agent query then "internal_only"
  else if 1 ≤ keywordScore current_keywords query then "external_priority"
  else if 1 ≤ keywordScore general_keywords query then "hybrid_balanced"
  else "hybrid_internal_priority"

/-- Synonym/context-expansion table of
`total_rag_test.HybridInternalExternalRAG._preprocess_query_for_context`,
in definition order. -/
def query_corrections : List (String × String) :=
  [("저출산", "저출생"),
   ("저출생", "저출생 저출산 출생률"),
   ("기후변화", "기후변화 환경 탄소중립"),
   ("부동산", "부동산 주택 임대료"),
   ("교육", "교육 학교 대학 학생"),
   ("의료", "의료 병원 건강보험"),
   ("복지", "복지 사회보장 연금"),
   ("경제", "경제 일자리 고용"),
   ("국정감사", "국정감사 국감"),
   ("예산", "예산 재정 세금")]

/-- Expansion table of `agent_JH.SearchAgents._preprocess_query_for_context`
(two additional entries at the end). -/
def query_corrections_agent : List (String × String) :=
  query_corrections ++
    [("환경", "환경 기후변화 탄소중립 친환경"),
     ("발의안", "발의안 법안 의안")]

/-- The preprocessing loop: on the first key occurring in the query, append
that key's expansion separated by a space and stop; otherwise continue, and
return the query unchanged when no key matches. -/
def expandLoop (query : String) : List (String × String) → String
  | [] => query
  | (key, expansion) :: rest =>
      if pyIn key query then query ++ " " ++ expansion
      else expandLoop query rest

/-- `total_rag_test.HybridInternalExternalRAG._preprocess_query_for_context`. -/
def _preprocess_query_for_context (query : String) : String :=
  expandLoop query query_corrections

/-- `agent_JH.SearchAgents._preprocess_query_for_context`. -/
def _preprocess_query_for_context_agent (query : String) : String :=
  expandLoop query query_corrections_agent

/-- A retrieval result, uniform across sources: the document dictionaries
built by `internal_search` and `external_search`. Optional fields stand for
dictionary keys that a given source does not set. -/
structure RetrievedDocument where
  source_type : String := "unknown"
  content : String := ""
  score : Rat := 0
  source_name : Option String := none
  speaker_name : Option String := none
  position : Option String := none
  minutes_date : Option String := none
  assembly_number : Option String := none
  session_number : Option String := none
  minutes_type : Option String := none
  document_id : Option String := none
  title : Option String := none
  url : Option String := none
deriving DecidableEq

/-- One hit of the vector index, with the fields `internal_search` selects
and its relevance score. -/
structure InternalHit where
  document_id : Option String := none
  speaker_name : Option String := none
  position : Option String := none
  minutes_date : Option String := none
  content : String := ""
  assembly_number : Option String := none
  session_number : Option String := none
  minutes_type : Option String := none
  score : Rat := 0
deriving DecidableEq

/-- The document `internal_search` builds from one index hit. -/
def mkInternalDoc (h : InternalHit) : RetrievedDocument :=
  { source_type := "internal",
    source_name := some "국회 회의록",
    content := h.content,
    score := h.score,
    document_id := h.document_id,
    speaker_name := h.speaker_name,
    position := h.position,
    minutes_date := h.minutes_date,
    assembly_number := h.assembly_number,
    session_number := h.session_number,
    minutes_type := h.minutes_type }

/-- `total_rag_test.HybridInternalExternalRAG.internal_search`: preprocess
the query, ask the vector index for `k` nearest neighbours of its
embedding, and map each hit to an internal document; a provider error is
caught, logged and turned into an empty list. The embedding lookup is
absorbed into the index provider, which receives the preprocessed query
and the neighbour count. -/
def internal_search (provider : String → Nat → Except String (List InternalHit))
    (query : String) (k : Nat) : List RetrievedDocument :=
  match provider (_preprocess_query_for_context query) k with
  | .error _ => []
  | .ok results => results.map mkInternalDoc

/-- One raw result of the external web-search provider. -/
structure TavilyResult where
  content : String := ""
  title : String := ""
  url : String := ""
  score : Rat := 0
deriving DecidableEq

/-- The external web-search provider's response: an optional synthesized
answer and the raw results. -/
structure TavilyResponse where
  answer : Option String := none
  results : List TavilyResult := []
deriving DecidableEq

/-- The summary document `external_search` prepends when the provider
returned a synthesized answer. -/
def tavilySummaryDoc (query answer : String) : RetrievedDocument :=
  { source_type := "external_summary",
    source_name := some "Tavily 요약",
    content := answer,
    title := some (query ++ "에 대한 요약 답변"),
    url := some "tavily_summary",
    score := 1 }

/-- The document `external_search` builds from one raw web result. -/
def mkExternalDoc (r : TavilyResult) : RetrievedDocument :=
  { source_type := "external",
    source_name := some "웹 검색",
    content := r.content,
    title := some r.title,
    url := some r.url,
    score := r.score }

/-- `total_rag_test.HybridInternalExternalRAG.external_search`: empty when
no client is configured; otherwise one provider call requesting up to `k`
results with a synthesized answer; a truthy answer is prepended as a
summary document; a provider error is caught, logged and turned into an
empty list. -/
def external_search (tavily_client : Bool)
    (provider : String → Nat → Except String TavilyResponse)
    (query : String) (k : Nat) : List RetrievedDocument :=
  if tavily_client = false then []
  else
    match provider query k with
    | .error _ => []
    | .ok response =>
        (match response.answer with
         | some answer =>
             if answer = "" then [] else [tavilySummaryDoc query answer]
         | none => []) ++ response.results.map mkExternalDoc

/-- Tail phase of the `hybrid_balanced` merging loop once one of the two
lists is exhausted: append one element per iteration, then break once `k`
documents have been collected. `count` is the number of documents
collected so far. -/
def interleaveRest {α : Type} (k : Nat) : List α → Nat → List α
  | [], _ => []
  | x :: xs, count =>
      x :: (if k ≤ count + 1 then [] else interleaveRest k xs (count + 1))

/-- The `hybrid_balanced` merging loop of `hybrid_search`: at each position
append the internal element if present, then the external element if
present, then break once `k` documents have been collected (the check runs
after the appends of the iteration). `count` is the number of documents
collected so far. -/
def interleaveStep {α : Type} (k : Nat) :
    List α → List α → Nat → List α
  | [], ys, count => interleaveRest k ys count
  | x :: xs, [], count => interleaveRest k (x :: xs) count
  | x :: xs, y :: ys, count =>
      x :: y :: (if k ≤ count + 2 then [] else interleaveStep k xs ys (count + 2))

/-- Unbounded position-by-position interleaving, the specification's
description of the balanced merge before the budget cut. -/
def interleaveAll {α : Type} : List α → List α → List α
  | [], ys => ys
  | x :: xs, [] => x :: xs
  | x :: xs, y :: ys => x :: y :: interleaveAll xs ys

/-- `total_rag_test.HybridInternalExternalRAG.hybrid_search`, parametrised
by the two retrieval executors. The second component is the log of requests
issued to the external retriever (query and requested count). -/
def hybrid_search (internalS externalS : String → Nat → List RetrievedDocument)
    (query : String) (k : Nat) (strategy : String) :
    List RetrievedDocument × List (String × Nat) :=
  if strategy = "internal_only" then
    (internalS query k, [])
  else if strategy = "external_priority" then
    ((externalS query (k / 2 + 2) ++ internalS query (k / 2)).take k,
     [(query, k / 2 + 2)])
  else if strategy = "hybrid_balanced" then
    (interleaveStep k (internalS query (k / 2)) (externalS query (k / 2)) 0,
     [(query, k / 2)])
  else
    ((internalS query (k / 2 + 2) ++ externalS query (k / 2)).take k,
     [(query, k / 2)])

/-- The bound `self.max_cache_size` of the embedding cache. -/
def max_cache_size : Nat := 1000

/-- `_get_cached_embedding` (identical in `total_rag_test.py` and
`agent_JH.py`): on a hit return the cached vector with no provider call;
on a miss, first delete the oldest-inserted entry if the cache is at
capacity, then call the provider, store and return. The result carries the
new cache, the vector, and the number of provider calls made (0 or 1). -/
def _get_cached_embedding {E : Type} (provider : String → E) (maxSize : Nat)
    (cache : List (String × E)) (text : String) :
    List (String × E) × E × Nat :=
  match cache.lookup text with
  | some v => (cache, v, 0)
  | none =>
      ((if maxSize ≤ cache.length then cache.drop 1 else cache)
          ++ [(text, provider text)],
       provider text, 1)

/-- Folds `_get_cached_embedding` over a sequence of requested texts,
returning the final cache and the total number of provider calls. -/
def runCache {E : Type} (provider : String → E) (maxSize : Nat) :
    List (String × E) → List String → List (String × E) × Nat
  | cache, [] => (cache, 0)
  | cache, t :: ts =>
      ((runCache provider maxSize
          (_get_cached_embedding provider maxSize cache t).1 ts).1,
       (_get_cached_embedding provider maxSize cache t).2.2 +
         (runCache provider maxSize
           (_get_cached_embedding provider maxSize cache t).1 ts).2)

/-- Python's startswith test on strings. -/
def pyStartsWith (s p : String) : Bool :=
  p.data.isPrefixOf s.data

/-- One numbered block of `generate_accessible_context`: the fields shown
depend on the document's source type. `dateFmt` stands for the
`_safe_date_format` helper, factored out as a parameter. -/
def contextBlock (dateFmt : Option String → String) (i : Nat)
    (doc : RetrievedDocument) : String :=
  if doc.source_type = "internal" then
    "\n" ++ toString i ++ "번째 정보 - 국회 회의록에서 찾은 내용입니다.\n발언자: "
      ++ (if doc.position.getD "" = "" then doc.speaker_name.getD "발언자 미상"
          else doc.speaker_name.getD "발언자 미상" ++ " " ++ doc.position.getD "")
      ++ "\n회의일: " ++ dateFmt doc.minutes_date
      ++ "\n회의: 제" ++ doc.assembly_number.getD "정보없음"
      ++ "대 국회 제" ++ doc.session_number.getD "정보없음"
      ++ "회 " ++ doc.minutes_type.getD "회의"
      ++ "\n내용: " ++ doc.content ++ "\n"
  else if pyStartsWith doc.source_type "external" then
    "\n" ++ toString i ++ "번째 정보 - " ++ doc.source_name.getD "웹 검색"
      ++ "에서 찾은 최신 정보입니다.\n제목: " ++ doc.title.getD "제목 없음"
      ++ "\n내용: " ++ doc.content ++ "\n"
  else
    "\n" ++ toString i ++ "번째 정보:\n내용: " ++ doc.content ++ "\n"

/-- The one-line aggregate summary of `generate_accessible_context`. -/
def contextSummary (internal_count external_count : Nat) : String :=
  "\n검색 결과 요약: 국회 회의록 " ++ toString internal_count
    ++ "개, 최신 웹 정보 " ++ toString external_count ++ "개를 찾았습니다.\n"

/-- `total_rag_test.HybridInternalExternalRAG.generate_accessible_context`:
a fixed sentence for the empty list; otherwise the aggregate summary
followed by the numbered blocks joined with newlines (the code returns
`summary + "\n".join(context_parts)`). -/
def generate_accessible_context (dateFmt : Option String → String)
    (documents : List RetrievedDocument) : String :=
  if documents = [] then "관련된 정보를 찾을 수 없습니다."
  else
    contextSummary
        (documents.countP (fun d => d.source_type == "internal"))
        (documents.countP (fun d => pyStartsWith d.source_type "external"))
      ++ String.intercalate "\n"
          ((documents.enumFrom 1).map (fun p => contextBlock dateFmt p.1 p.2))

/-- A chat message of the agent graph's state. -/
inductive Message where
  | human (content : String)
  | ai (content : String)
deriving DecidableEq

/-- `agent_JH.AgentState` (the timing dictionary `processing_info` is
omitted: it only records wall-clock times). -/
structure AgentState where
  messages : List Message := []
  query : String := ""
  search_strategy : String := ""
  internal_results : List RetrievedDocument := []
  external_results : List RetrievedDocument := []
  final_answer : String := ""
  step_count : Nat := 0
deriving DecidableEq

/-- Truthiness of Python's stripped string: some non-whitespace character
remains. -/
def pyTruthyStripped (s : String) : Bool :=
  s.data.any (fun c => !c.isWhitespace)

/-- `agent_JH.entry_node`: extract the query from the last message. -/
def entry_node (state : AgentState) : AgentState :=
  match state.messages.getLast? with
  | none =>
      { state with final_answer := "질문이 없습니다.",
                   step_count := state.step_count + 1 }
  | some (Message.human content) =>
      { state with query := content, step_count := state.step_count + 1 }
  | some (Message.ai _) =>
      { state with final_answer := "유효한 질문을 찾을 수 없습니다.",
                   step_count := state.step_count + 1 }

/-- `agent_JH.strategy_node`. -/
def strategy_node (state : AgentState) : AgentState :=
  if state.query = "" then
    { state with final_answer := "질문이 없어 전략을 결정할 수 없습니다.",
                 step_count := state.step_count + 1 }
  else
    { state with search_strategy := strategy_analyzer_tool state.query,
                 step_count := state.step_count + 1 }

/-- `agent_JH.search_node`, parametrised by the two retrieval tools. -/
def search_node (internalT externalT : String → Nat → List RetrievedDocument)
    (state : AgentState) : AgentState :=
  if state.query = "" ∨ state.search_strategy = "" then
    { state with final_answer := "검색에 필요한 정보가 부족합니다.",
                 step_count := state.step_count + 1 }
  else if state.search_strategy = "internal_only" then
    { state with internal_results := internalT state.query 5,
                 external_results := [],
                 step_count := state.step_count + 1 }
  else if state.search_strategy = "external_priority" then
    { state with external_results := externalT state.query 3,
                 internal_results := internalT state.query 2,
                 step_count := state.step_count + 1 }
  else if state.search_strategy = "hybrid_balanced" then
    { state with internal_results := internalT state.query 3,
                 external_results := externalT state.query 2,
                 step_count := state.step_count + 1 }
  else
    { state with internal_results := internalT state.query 4,
                 external_results := externalT state.query 1,
                 step_count := state.step_count + 1 }

/-- `agent_JH.answer_node`, with the context build and chat call abstracted
into `gen`. -/
def answer_node (gen : AgentState → String) (state : AgentState) : AgentState :=
  { state with final_answer := gen state,
               step_count := state.step_count + 1 }

/-- `agent_JH.route_after_entry`. -/
def route_after_entry (state : AgentState) : String :=
  if 10 < state.step_count then "__end__"
  else if state.query ≠ "" ∧ pyTruthyStripped state.query then "strategy_node"
  else "__end__"

/-- `agent_JH.route_after_strategy`. -/
def route_after_strategy (state : AgentState) : String :=
  if 10 < state.step_count then "__end__"
  else if state.search_strategy ≠ "" then "search_node"
  else "__end__"

/-- `agent_JH.route_after_search`. -/
def route_after_search (state : AgentState) : String :=
  if 10 < state.step_count then "__end__"
  else if state.internal_results ≠ [] ∨ state.external_results ≠ [] then
    "answer_node"
  else "__end__"

/-- The initial state `main_JH.RAGSystem.ask` passes to the compiled
graph. -/
def initial_state (query : String) : AgentState :=
  { messages := [Message.human query],
    query := "",
    search_strategy := "",
    internal_results := [],
    external_results := [],
    final_answer := "",
    step_count := 0 }

/-- Runs the compiled agent graph of `agent_JH.create_agent_graph`: entry,
then the conditional edges in order. Returns the final state, the list of
executed nodes, and a terminal diagnostic label; the labels are the
specification's state-machine names for the code's exit edges (the code
itself routes to END without a reason string). -/
def run_agent_graph (internalT externalT : String → Nat → List RetrievedDocument)
    (gen : AgentState → String) (state0 : AgentState) :
    AgentState × List String × String :=
  let s1 := entry_node state0
  if route_after_entry s1 = "strategy_node" then
    let s2 := strategy_node s1
    if route_after_strategy s2 = "search_node" then
      let s3 := search_node internalT externalT s2
      if route_after_search s3 = "answer_node" then
        (answer_node gen s3,
         ["entry_node", "strategy_node", "search_node", "answer_node"],
         "success")
      else
        (s3, ["entry_node", "strategy_node", "search_node"],
         if 10 < s3.step_count then "step limit" else "no results")
    else
      (s2, ["entry_node", "strategy_node"],
       if 10 < s2.step_count then "step limit" else "no strategy")
  else
    (s1, ["entry_node"],
     if 10 < s1.step_count then "step limit" else "no query")

/-- Concrete internal documents used in merge examples. -/
def exA : RetrievedDocument := { source_type := "internal", content := "A" }

/-- Second concrete internal document. -/
def exB : RetrievedDocument := { source_type := "internal", content := "B" }

/-- Third concrete internal document. -/
def exC : RetrievedDocument := { source_type := "internal", content := "C" }

/-- Concrete external documents used in merge examples. -/
def exX : RetrievedDocument := { source_type := "external", content := "X" }

/-- Second concrete external document. -/
def exY : RetrievedDocument := { source_type := "external", content := "Y" }

/-- Third concrete external document. -/
def exZ : RetrievedDocument := { source_type := "external", content := "Z" }

/-- A concrete internal document for rendering examples. -/
def cDocInternal : RetrievedDocument :=
  { source_type := "internal",
    content := "발언 내용",
    speaker_name := some "홍길동",
    position := none,
    minutes_date := none,
    assembly_number := some "21",
    session_number := some "400",
    minutes_type := some "본회의" }

/-- `max_cache_size + 1` pairwise distinct texts (of pairwise distinct
lengths), for exercising the cache bound. -/
def witnessTexts : List String :=
  (List.range (max_cache_size + 1)).map
    (fun n => String.mk (List.replicate n 'a'))

/-- Claim C1: both strategy classifiers are pure functions evaluating the
four conditions in strict priority order: at least two assembly keywords
give internal_only, else at least one recency keyword gives
external_priority, else at least one general keyword gives
hybrid_balanced, else hybrid_internal_priority. -/
theorem c1_strategy_classifier_priority (query : String) :
    ((2 ≤ keywordScore assembly_keywords query →
        _determine_search_strategy query = "internal_only") ∧
      (keywordScore assembly_keywords query < 2 →
        1 ≤ keywordScore current_keywords query →
        _determine_search_strategy query = "external_priority") ∧
      (keywordScore assembly_keywords query < 2 →
        keywordScore current_keywords query = 0 →
        1 ≤ keywordScore general_keywords query →
        _determine_search_strategy query = "hybrid_balanced") ∧
      (keywordScore assembly_keywords query < 2 →
        keywordScore current_keywords query = 0 →
        keywordScore general_keywords query = 0 →
        _determine_search_strategy query = "hybrid_internal_priority")) ∧
    ((2 ≤ keywordScore assembly_keywords_agent query →
        strategy_analyzer_tool query = "internal_only") ∧
      (keywordScore assembly_keywords_agent query < 2 →
        1 ≤ keywordScore current_keywords query →
        strategy_analyzer_tool query = "external_priority") ∧
      (keywordScore assembly_keywords_agent query < 2 →
        keywordScore current_keywords query = 0 →
        1 ≤ keywordScore general_keywords query →
        strategy_analyzer_tool query = "hybrid_balanced") ∧
      (keywordScore assembly_keywords_agent query < 2 →
        keywordScore current_keywords query = 0 →
        keywordScore general_keywords query = 0 →
        strategy_analyzer_tool query = "hybrid_internal_priority")) := by
  unfold _determine_search_strategy strategy_analyzer_tool
  refine ⟨⟨?_, ?_, ?_, ?_⟩, ⟨?_, ?_, ?_, ?_⟩⟩
  · intro h1; rw [if_pos h1]
  · intro h1 h2; rw [if_neg (by omega), if_pos h2]
  · intro h1 h2 h3; rw [if_neg (by omega), if_neg (by omega), if_pos h3]
  · intro h1 h2 h3
    rw [if_neg (by omega), if_neg (by omega), if_neg (by omega)]
  · intro h1; rw [if_pos h1]
  · intro h1 h2; rw [if_neg (by omega), if_pos h2]
  · intro h1 h2 h3; rw [if_neg (by omega), if_neg (by omega), if_pos h3]
  · intro h1 h2 h3
    rw [if_neg (by omega), if_neg (by omega), if_neg (by omega)]

/-- Witness for C1: each of the four branches fires on a concrete query
(two assembly keywords; a recency keyword; a general keyword; none). -/
theorem c1_strategy_classifier_priority_witness :
    2 ≤ keywordScore assembly_keywords "국회 예산" ∧
    _determine_search_strategy "국회 예산" = "internal_only" ∧
    _determine_search_strategy "최근 소식" = "external_priority" ∧
    _determine_search_strategy "민주주의 의미" = "hybrid_balanced" ∧
    _determine_search_strategy "안녕하세요" = "hybrid_internal_priority" ∧
    strategy_analyzer_tool "국회 발의안" = "internal_only" := by
  refine ⟨by decide,
    (c1_strategy_classifier_priority "국회 예산").1.1 (by decide),
    (c1_strategy_classifier_priority "최근 소식").1.2.1 (by decide) (by decide),
    (c1_strategy_classifier_priority "민주주의 의미").1.2.2.1
      (by decide) (by decide) (by decide),
    (c1_strategy_classifier_priority "안녕하세요").1.2.2.2
      (by decide) (by decide) (by decide),
    (c1_strategy_classifier_priority "국회 발의안").2.1 (by decide)⟩

/-- Once one list is exhausted, the merging loop appends the remainder one
element per iteration and therefore truncates it at the remaining budget. -/
theorem interleaveRest_eq_take {α : Type} (k : Nat) :
    ∀ (ys : List α) (c : Nat), c < k → interleaveRest k ys c = ys.take (k - c) := by
  intro ys
  induction ys with
  | nil => intro c h; simp [interleaveRest]
  | cons y ys ih =>
    intro c h
    simp only [interleaveRest]
    by_cases hk : k ≤ c + 1
    · have hkc : k - c = 1 := by omega
      simp [hk, hkc]
    · have hkc : k - c = (k - (c + 1)) + 1 := by omega
      rw [hkc, List.take_succ_cons, if_neg hk, ih (c + 1) (by omega)]

/-- The merging loop on an exhausted external list reduces to the tail
phase. -/
theorem interleaveStep_nil_right {α : Type} (k : Nat) (xs : List α) (c : Nat) :
    interleaveStep k xs [] c = interleaveRest k xs c := by
  cases xs <;> simp [interleaveStep]

/-- When the internal list carries at most half the remaining budget and
the external list at most one element more, the merging loop equals the
unbounded interleaving truncated at the remaining budget. -/
theorem interleaveStep_eq_take {α : Type} (k : Nat) :
    ∀ (xs ys : List α) (c : Nat),
      c + 2 * xs.length ≤ k → c + 2 * ys.length ≤ k + 2 → c < k →
      interleaveStep k xs ys c = (interleaveAll xs ys).take (k - c) := by
  intro xs
  induction xs with
  | nil =>
    intro ys c h1 h2 hc
    simp [interleaveStep, interleaveAll, interleaveRest_eq_take k ys c hc]
  | cons x xs ih =>
    intro ys c h1 h2 hc
    cases ys with
    | nil =>
      rw [interleaveStep_nil_right, interleaveRest_eq_take k _ c hc]
      simp [interleaveAll]
    | cons y ys =>
      simp only [interleaveStep, interleaveAll]
      simp only [List.length_cons] at h1 h2
      have hxk : c + 2 ≤ k := by omega
      by_cases hk : k ≤ c + 2
      · have hkc : k - c = 2 := by omega
        simp [hk, hkc]
      · have hkc : k - c = (k - (c + 2)) + 1 + 1 := by omega
        rw [if_neg hk, hkc, List.take_succ_cons, List.take_succ_cons,
          ih ys (c + 2) (by omega) (by omega) (by omega)]

/-- On arbitrary input lists the merging loop can overshoot the budget by
at most one document, because the break check runs after the two appends
of an iteration. -/
theorem interleaveStep_length_le {α : Type} (k : Nat) :
    ∀ (xs ys : List α) (c : Nat), c < k →
      c + (interleaveStep k xs ys c).length ≤ k + 1 := by
  intro xs
  induction xs with
  | nil =>
    intro ys c hc
    simp only [interleaveStep]
    rw [interleaveRest_eq_take k ys c hc]
    simp [List.length_take]
    omega
  | cons x xs ih =>
    intro ys c hc
    cases ys with
    | nil =>
      rw [interleaveStep_nil_right, interleaveRest_eq_take k _ c hc]
      simp [List.length_take]
      omega
    | cons y ys =>
      simp only [interleaveStep]
      by_cases hk : k ≤ c + 2
      · simp [hk]
        omega
      · rw [if_neg hk]
        have := ih ys (c + 2) (by omega)
        simp only [List.length_cons] at this ⊢
        omega

/-- Counterexample to Claim C2 as stated: under `hybrid_balanced` with
returned lists of three documents each and `k = 5`, the merged result has
six documents, exceeding `k` (the break check runs only after both appends
of an iteration). -/
theorem c2_counterexample :
    (hybrid_search (fun _ _ => [exA, exB, exC]) (fun _ _ => [exX, exY, exZ])
        "질문" 5 "hybrid_balanced").1 = [exA, exX, exB, exY, exC, exZ] ∧
    5 < (hybrid_search (fun _ _ => [exA, exB, exC]) (fun _ _ => [exX, exY, exZ])
        "질문" 5 "hybrid_balanced").1.length := by
  constructor <;> decide

/-- Claim C2 (amended): `hybrid_balanced` requests `k / 2` documents from
each retriever and interleaves them position-by-position with the stop
check after each iteration; when `1 ≤ k` and the returned lists respect
the requested sizes (external may carry one extra prepended summary), the
result is the position-by-position interleaving truncated to `k` and never
exceeds `k`; on arbitrary returned lists it never exceeds `k + 1`; and the
concrete example internal=[A,B,C], external=[X,Y], k=5 merges to
[A,X,B,Y,C]. -/
theorem c2_hybrid_balanced_merge
    (internalS externalS : String → Nat → List RetrievedDocument)
    (query : String) (k : Nat) :
    ((hybrid_search internalS externalS query k "hybrid_balanced").1 =
        interleaveStep k (internalS query (k / 2)) (externalS query (k / 2)) 0) ∧
    (1 ≤ k →
      (internalS query (k / 2)).length ≤ k / 2 →
      (externalS query (k / 2)).length ≤ k / 2 + 1 →
      (hybrid_search internalS externalS query k "hybrid_balanced").1 =
          (interleaveAll (internalS query (k / 2))
            (externalS query (k / 2))).take k ∧
        (hybrid_search internalS externalS query k "hybrid_balanced").1.length ≤ k) ∧
    (1 ≤ k →
      (hybrid_search internalS externalS query k "hybrid_balanced").1.length ≤ k + 1) ∧
    (hybrid_search (fun _ _ => [exA, exB, exC]) (fun _ _ => [exX, exY])
        "질문" 5 "hybrid_balanced").1 = [exA, exX, exB, exY, exC] := by
  refine ⟨by simp [hybrid_search], ?_, ?_, by decide⟩
  · intro hk h1 h2
    have heq := interleaveStep_eq_take k (internalS query (k / 2))
      (externalS query (k / 2)) 0 (by omega) (by omega) (by omega)
    constructor
    · simp [hybrid_search, heq]
    · simp [hybrid_search, heq, List.length_take]
  · intro hk
    have := interleaveStep_length_le k (internalS query (k / 2))
      (externalS query (k / 2)) 0 (by omega)
    simp [hybrid_search]
    omega

/-- Witness for C2: the amended bound at a concrete instance (k = 5,
internal two documents, external three including a summary slot). -/
theorem c2_hybrid_balanced_merge_witness :
    (1 ≤ 5 ∧ 2 ≤ 5 / 2 ∧ 3 ≤ 5 / 2 + 1) ∧
    ((hybrid_search (fun _ _ => [exA, exB]) (fun _ _ => [exX, exY, exZ])
        "질문" 5 "hybrid_balanced").1 =
        (interleaveAll [exA, exB] [exX, exY, exZ]).take 5 ∧
      (hybrid_search (fun _ _ => [exA, exB]) (fun _ _ => [exX, exY, exZ])
        "질문" 5 "hybrid_balanced").1.length ≤ 5) := by
  refine ⟨by decide, ?_⟩
  exact (c2_hybrid_balanced_merge (fun _ _ => [exA, exB])
    (fun _ _ => [exX, exY, exZ]) "질문" 5).2.1 (by decide) (by decide) (by decide)

/-- Claim C3: `external_priority` requests `k / 2 + 2` external and `k / 2`
internal documents and returns external-first concatenation truncated to
`k`; `hybrid_internal_priority` does the symmetric internal-first merge;
both results never exceed `k` documents. -/
theorem c3_priority_merge_concat
    (internalS externalS : String → Nat → List RetrievedDocument)
    (query : String) (k : Nat) :
    ((hybrid_search internalS externalS query k "external_priority").1 =
        (externalS query (k / 2 + 2) ++ internalS query (k / 2)).take k) ∧
    ((hybrid_search internalS externalS query k "hybrid_internal_priority").1 =
        (internalS query (k / 2 + 2) ++ externalS query (k / 2)).take k) ∧
    (hybrid_search internalS externalS query k "external_priority").1.length ≤ k ∧
    (hybrid_search internalS externalS query k
        "hybrid_internal_priority").1.length ≤ k := by
  refine ⟨by simp [hybrid_search], by simp [hybrid_search], ?_, ?_⟩ <;>
    simp [hybrid_search, List.length_take]

/-- Claim C4: `internal_only` returns the internal retriever's output for
the full `k` unchanged, with an empty external request log; likewise the
agent's search node under `internal_only` fills only internal results and
leaves the external results empty. -/
theorem c4_internal_only_exclusive :
    (∀ (internalS externalS : String → Nat → List RetrievedDocument)
        (query : String) (k : Nat),
      hybrid_search internalS externalS query k "internal_only" =
        (internalS query k, [])) ∧
    (∀ (internalT externalT : String → Nat → List RetrievedDocument)
        (state : AgentState),
      state.search_strategy = "internal_only" → state.query ≠ "" →
        (search_node internalT externalT state).internal_results =
            internalT state.query 5 ∧
          (search_node internalT externalT state).external_results = []) := by
  constructor
  · intro internalS externalS query k
    simp [hybrid_search]
  · intro internalT externalT state hs hq
    simp [search_node, hs, hq]

/-- Witness for C4: a concrete agent state with the internal_only strategy
routes all retrieval to the internal tool and leaves external empty. -/
theorem c4_internal_only_exclusive_witness :
    ((⟨[], "국회 예산", "internal_only", [], [], "", 2⟩ :
        AgentState).search_strategy = "internal_only" ∧
      (⟨[], "국회 예산", "internal_only", [], [], "", 2⟩ :
        AgentState).query ≠ "") ∧
    ((search_node (fun _ _ => [exA]) (fun _ _ => [exX])
        ⟨[], "국회 예산", "internal_only", [], [], "", 2⟩).internal_results =
        [exA] ∧
      (search_node (fun _ _ => [exA]) (fun _ _ => [exX])
        ⟨[], "국회 예산", "internal_only", [], [], "", 2⟩).external_results = []) := by
  refine ⟨⟨rfl, by decide⟩, ?_⟩
  exact c4_internal_only_exclusive.2 (fun _ _ => [exA]) (fun _ _ => [exX])
    ⟨[], "국회 예산", "internal_only", [], [], "", 2⟩ rfl (by decide)

/-- Claim C5: a failing provider call makes its executor return an empty
list (the error is caught, not propagated), and a branch that yields the
empty list never makes the merge fail — the other branch's documents are
still delivered under every strategy, merely truncated by the usual
budget. -/
theorem c5_branch_failure_degrades :
    (∀ (p : String → Nat → Except String (List InternalHit))
        (query : String) (k : Nat) (e : String),
      p (_preprocess_query_for_context query) k = .error e →
        internal_search p query k = []) ∧
    (∀ (p : String → Nat → Except String TavilyResponse)
        (query : String) (k : Nat) (e : String),
      p query k = .error e → external_search true p query k = []) ∧
    (∀ (externalS : String → Nat → List RetrievedDocument)
        (query : String) (k : Nat),
      (hybrid_search (fun _ _ => []) externalS query k "external_priority").1 =
          (externalS query (k / 2 + 2)).take k ∧
        (hybrid_search (fun _ _ => []) externalS query k
            "hybrid_internal_priority").1 = (externalS query (k / 2)).take k ∧
        (1 ≤ k →
          (hybrid_search (fun _ _ => []) externalS query k "hybrid_balanced").1 =
            (externalS query (k / 2)).take k)) ∧
    (∀ (internalS : String → Nat → List RetrievedDocument)
        (query : String) (k : Nat),
      (hybrid_search internalS (fun _ _ => []) query k "internal_only").1 =
          internalS query k ∧
        (hybrid_search internalS (fun _ _ => []) query k "external_priority").1 =
          (internalS query (k / 2)).take k ∧
        (hybrid_search internalS (fun _ _ => []) query k
            "hybrid_internal_priority").1 = (internalS query (k / 2 + 2)).take k ∧
        (1 ≤ k →
          (hybrid_search internalS (fun _ _ => []) query k "hybrid_balanced").1 =
            (internalS query (k / 2)).take k)) := by
  refine ⟨?_, ?_, ?_, ?_⟩
  · intro p query k e hp
    simp [internal_search, hp]
  · intro p query k e hp
    simp [external_search, hp]
  · intro externalS query k
    refine ⟨by simp [hybrid_search], by simp [hybrid_search], ?_⟩
    intro hk
    have h0 : interleaveStep k ([] : List RetrievedDocument)
        (externalS query (k / 2)) 0 = (externalS query (k / 2)).take k := by
      simp only [interleaveStep]
      rw [interleaveRest_eq_take k _ 0 (by omega), Nat.sub_zero]
    simp [hybrid_search, h0]
  · intro internalS query k
    refine ⟨by simp [hybrid_search], by simp [hybrid_search],
      by simp [hybrid_search], ?_⟩
    intro hk
    have h0 : interleaveStep k (internalS query (k / 2))
        ([] : List RetrievedDocument) 0 = (internalS query (k / 2)).take k := by
      rw [interleaveStep_nil_right, interleaveRest_eq_take k _ 0 (by omega),
        Nat.sub_zero]
    simp [hybrid_search, h0]

/-- Witness for C5: a concretely failing internal provider yields an empty
internal branch, and the external documents still come through the
external_priority merge. -/
theorem c5_branch_failure_degrades_witness :
    ((fun (_ : String) (_ : Nat) =>
        (Except.error "연결 오류" : Except String (List InternalHit)))
          (_preprocess_query_for_context "질문") 5 = Except.error "연결 오류" ∧
      internal_search (fun _ _ => Except.error "연결 오류") "질문" 5 = []) ∧
    external_search true (fun _ _ => Except.error "연결 오류") "질문" 5 = [] ∧
    (hybrid_search (fun _ _ => []) (fun _ _ => [exX, exY]) "질문" 5
        "external_priority").1 = ([exX, exY] : List RetrievedDocument).take 5 ∧
    (1 ≤ 5 ∧
      (hybrid_search (fun _ _ => []) (fun _ _ => [exX, exY]) "질문" 5
        "hybrid_balanced").1 = ([exX, exY] : List RetrievedDocument).take 5) := by
  refine ⟨⟨rfl, ?_⟩, ?_, ?_, by decide, ?_⟩
  · exact c5_branch_failure_degrades.1 (fun _ _ => Except.error "연결 오류")
      "질문" 5 "연결 오류" rfl
  · exact c5_branch_failure_degrades.2.1 (fun _ _ => Except.error "연결 오류")
      "질문" 5 "연결 오류" rfl
  · exact (c5_branch_failure_degrades.2.2.1 (fun _ _ => [exX, exY]) "질문" 5).1
  · exact (c5_branch_failure_degrades.2.2.1 (fun _ _ => [exX, exY]) "질문" 5).2.2
      (by decide)

/-- A key absent from an association list is also absent from its tail. -/
theorem lookup_tail_none {E : Type} (l : List (String × E)) (t : String)
    (h : l.lookup t = none) : (l.drop 1).lookup t = none := by
  cases l with
  | nil => simp
  | cons p l =>
    obtain ⟨k, v⟩ := p
    simp only [List.lookup] at h
    cases hb : (t == k) with
    | true => simp [hb] at h
    | false =>
      simp only [hb] at h
      simpa using h

/-- Looking up a key absent from the first part of an appended association
list continues in the second part. -/
theorem lookup_append_of_none {E : Type} (l1 l2 : List (String × E)) (t : String)
    (h : l1.lookup t = none) : (l1 ++ l2).lookup t = l2.lookup t := by
  induction l1 with
  | nil => simp
  | cons p l1 ih =>
    obtain ⟨k, v⟩ := p
    simp only [List.lookup, List.cons_append] at h ⊢
    cases hb : (t == k) with
    | true => simp [hb] at h
    | false =>
      simp only [hb] at h ⊢
      exact ih h

/-- A freshly appended entry is found when its key was absent before. -/
theorem lookup_append_single {E : Type} (l : List (String × E)) (t : String)
    (e : E) (h : l.lookup t = none) : (l ++ [(t, e)]).lookup t = some e := by
  rw [lookup_append_of_none l _ t h]
  simp [List.lookup]

/-- A key outside a list of texts is absent from the cache built by
pairing each text with its embedding. -/
theorem lookup_map_pair_none {E : Type} (f : String → E) (ts : List String)
    (t : String) (h : t ∉ ts) :
    (ts.map (fun s => (s, f s))).lookup t = none := by
  induction ts with
  | nil => simp
  | cons s ts ih =>
    simp only [List.map_cons, List.lookup]
    have hts : (t == s) = false := by
      refine beq_eq_false_iff_ne.mpr ?_
      intro he
      exact h (he ▸ List.mem_cons_self s ts)
    simp only [hts]
    exact ih fun hm => h (List.mem_cons_of_mem s hm)

/-- Processing fresh, pairwise distinct texts that still fit the bound
appends one entry per text, in request order, with one provider call
each. -/
theorem runCache_fills {E : Type} (f : String → E) (m : Nat) :
    ∀ (ts : List String) (cache : List (String × E)),
      ts.Nodup → (∀ t ∈ ts, cache.lookup t = none) →
      cache.length + ts.length ≤ m →
      runCache f m cache ts = (cache ++ ts.map (fun t => (t, f t)), ts.length) := by
  intro ts
  induction ts with
  | nil => intro cache _ _ _; simp [runCache]
  | cons t ts ih =>
    intro cache hnd hlk hlen
    have hct : cache.lookup t = none := hlk t (List.mem_cons_self t ts)
    have hclen : ¬ m ≤ cache.length := by
      simp only [List.length_cons] at hlen
      omega
    have hstep : _get_cached_embedding f m cache t = (cache ++ [(t, f t)], f t, 1) := by
      simp [_get_cached_embedding, hct, hclen]
    have hnotts : t ∉ ts := (List.nodup_cons.mp hnd).1
    have hrec := ih (cache ++ [(t, f t)]) (List.nodup_cons.mp hnd).2
      (by
        intro s hs
        rw [lookup_append_of_none _ _ _ (hlk s (List.mem_cons_of_mem t hs))]
        have hne : (s == t) = false := by
          refine beq_eq_false_iff_ne.mpr ?_
          intro he
          exact hnotts (he ▸ hs)
        simp [List.lookup, hne])
      (by
        simp only [List.length_append, List.length_cons, List.length_nil] at hlen ⊢
        omega)
    simp only [runCache, hstep, hrec]
    simp [List.append_assoc, Nat.add_comm]

/-- One cache step preserves the size bound when the bound is positive. -/
theorem get_cached_length_le {E : Type} (f : String → E) (m : Nat)
    (cache : List (String × E)) (text : String)
    (hm : 1 ≤ m) (h : cache.length ≤ m) :
    (_get_cached_embedding f m cache text).1.length ≤ m := by
  unfold _get_cached_embedding
  cases hl : cache.lookup text with
  | some v => simpa [hl] using h
  | none =>
    by_cases hc : m ≤ cache.length
    · simp [hl, hc, List.length_drop]
      omega
    · simp [hl, hc]
      omega

/-- Any request sequence keeps the cache within the positive bound. -/
theorem runCache_length_le {E : Type} (f : String → E) (m : Nat) (hm : 1 ≤ m) :
    ∀ (ts : List String) (cache : List (String × E)), cache.length ≤ m →
      (runCache f m cache ts).1.length ≤ m := by
  intro ts
  induction ts with
  | nil => intro cache h; simpa [runCache] using h
  | cons t ts ih =>
    intro cache h
    simp only [runCache]
    exact ih _ (get_cached_length_le f m cache t hm h)

/-- Splitting a request sequence splits the cache fold. -/
theorem runCache_append_fst {E : Type} (f : String → E) (m : Nat) :
    ∀ (l1 l2 : List String) (cache : List (String × E)),
      (runCache f m cache (l1 ++ l2)).1 =
        (runCache f m (runCache f m cache l1).1 l2).1 := by
  intro l1
  induction l1 with
  | nil => intro l2 cache; simp [runCache]
  | cons t l1 ih =>
    intro l2 cache
    simp only [List.cons_append, runCache]
    exact ih l2 _

/-- Claim C6: a repeated text costs exactly one provider call; any request
sequence starting from the empty cache keeps at most `max_cache_size`
entries; and `max_cache_size + 1` distinct texts leave exactly
`max_cache_size` entries, deterministically evicting the oldest-inserted
one (the final keys are the requested texts without the first). -/
theorem c6_embedding_cache :
    (∀ (E : Type) (f : String → E) (cache : List (String × E)) (text : String),
      cache.lookup text = none →
        (_get_cached_embedding f max_cache_size cache text).2.2 +
            (_get_cached_embedding f max_cache_size
              (_get_cached_embedding f max_cache_size cache text).1 text).2.2 = 1) ∧
    (∀ (E : Type) (f : String → E) (ts : List String),
      (runCache f max_cache_size [] ts).1.length ≤ max_cache_size) ∧
    (∀ (E : Type) (f : String → E) (ts : List String),
      ts.Nodup → ts.length = max_cache_size + 1 →
        (runCache f max_cache_size [] ts).1.length = max_cache_size ∧
          (runCache f max_cache_size [] ts).1.map Prod.fst = ts.drop 1) := by
  refine ⟨?_, ?_, ?_⟩
  · intro E f cache text h
    have hstep : _get_cached_embedding f max_cache_size cache text =
        ((if max_cache_size ≤ cache.length then cache.drop 1 else cache)
            ++ [(text, f text)], f text, 1) := by
      unfold _get_cached_embedding
      rw [h]
    have hnone : (if max_cache_size ≤ cache.length then cache.drop 1
        else cache).lookup text = none := by
      by_cases hc : max_cache_size ≤ cache.length
      · simpa [hc] using lookup_tail_none cache text h
      · simpa [hc] using h
    have hhit := lookup_append_single _ text (f text) hnone
    have h2 : _get_cached_embedding f max_cache_size
        ((if max_cache_size ≤ cache.length then cache.drop 1 else cache)
          ++ [(text, f text)]) text =
        ((if max_cache_size ≤ cache.length then cache.drop 1 else cache)
          ++ [(text, f text)], f text, 0) := by
      unfold _get_cached_embedding
      rw [hhit]
    rw [hstep]
    simp only [h2]
  · intro E f ts
    exact runCache_length_le f max_cache_size (by decide) ts [] (by simp)
  · intro E f ts hnd hlen
    have hAlen : (ts.take max_cache_size).length = max_cache_size := by
      simp [List.length_take, hlen]
    have hBlen : (ts.drop max_cache_size).length = 1 := by
      simp [List.length_drop, hlen]
    obtain ⟨t, hBt⟩ := List.length_eq_one.mp hBlen
    have hts : ts = ts.take max_cache_size ++ [t] := by
      conv_lhs => rw [← List.take_append_drop max_cache_size ts]
      rw [hBt]
    have hAnd : (ts.take max_cache_size).Nodup :=
      hnd.sublist (List.take_sublist max_cache_size ts)
    have htA : t ∉ ts.take max_cache_size := by
      intro hmem
      rw [hts] at hnd
      exact (List.nodup_append.mp hnd).2.2 hmem (List.mem_singleton.mpr rfl)
    have hfill : runCache f max_cache_size [] (ts.take max_cache_size) =
        ((ts.take max_cache_size).map (fun s => (s, f s)),
         (ts.take max_cache_size).length) := by
      have := runCache_fills f max_cache_size (ts.take max_cache_size) [] hAnd
        (by intro s _; rfl)
        (by simp only [List.length_nil, hAlen]; omega)
      simpa using this
    have hClen : ((ts.take max_cache_size).map (fun s => (s, f s))).length =
        max_cache_size := by
      rw [List.length_map, hAlen]
    have hlkC := lookup_map_pair_none f (ts.take max_cache_size) t htA
    have hstep2 : _get_cached_embedding f max_cache_size
        ((ts.take max_cache_size).map (fun s => (s, f s))) t =
        (((ts.take max_cache_size).map (fun s => (s, f s))).drop 1
          ++ [(t, f t)], f t, 1) := by
      unfold _get_cached_embedding
      rw [hlkC, hClen, if_pos (le_refl max_cache_size)]
    have hrun : (runCache f max_cache_size [] ts).1 =
        ((ts.take max_cache_size).map (fun s => (s, f s))).drop 1
          ++ [(t, f t)] := by
      conv_lhs => rw [hts]
      rw [runCache_append_fst, hfill]
      simp only [runCache, hstep2]
    constructor
    · rw [hrun, List.length_append, List.length_drop, hClen]
      simp only [List.length_cons, List.length_nil]
      decide
    · rw [hrun, List.map_append, List.map_drop, List.map_map]
      have hfst : ((ts.take max_cache_size).map
          (Prod.fst ∘ fun s => (s, f s))) = ts.take max_cache_size := by
        simp only [Function.comp_def]
        simp
      rw [hfst]
      conv_rhs => rw [hts]
      rw [List.drop_append_of_le_length (by rw [hAlen]; decide)]
      simp

/-- Witness for C6: the double-request costs one call on the empty cache,
and the concrete list of 1001 pairwise distinct texts satisfies the
eviction statement's hypotheses. -/
theorem c6_embedding_cache_witness :
    (([] : List (String × Nat)).lookup "질문" = none ∧
      (_get_cached_embedding (fun _ => 0) max_cache_size
            ([] : List (String × Nat)) "질문").2.2 +
          (_get_cached_embedding (fun _ => 0) max_cache_size
            (_get_cached_embedding (fun _ => 0) max_cache_size
              ([] : List (String × Nat)) "질문").1 "질문").2.2 = 1) ∧
    (witnessTexts.Nodup ∧ witnessTexts.length = max_cache_size + 1) ∧
    ((runCache (fun _ => 0) max_cache_size [] witnessTexts).1.length =
        max_cache_size ∧
      (runCache (fun _ => 0) max_cache_size [] witnessTexts).1.map Prod.fst =
        witnessTexts.drop 1) := by
  have hinj : Function.Injective (fun n => String.mk (List.replicate n 'a')) := by
    intro a b h
    have := congrArg (fun s => s.data.length) h
    simpa using this
  have hnd : witnessTexts.Nodup :=
    List.Nodup.map hinj (List.nodup_range _)
  have hlen : witnessTexts.length = max_cache_size + 1 := by
    simp [witnessTexts]
  exact ⟨⟨rfl, c6_embedding_cache.1 Nat (fun _ => 0) [] "질문" rfl⟩,
    ⟨hnd, hlen⟩,
    c6_embedding_cache.2.2 Nat (fun _ => 0) witnessTexts hnd hlen⟩

/-- Counterexample to Claim C7 as stated: the aggregate summary line is
prepended, not appended — on a one-document list the rendered context is
the summary followed by the numbered block, not the block followed by the
summary. -/
theorem c7_counterexample :
    generate_accessible_context (fun _ => "날짜 정보 없음") [cDocInternal] =
      "\n검색 결과 요약: 국회 회의록 1개, 최신 웹 정보 0개를 찾았습니다.\n"
        ++ "\n1번째 정보 - 국회 회의록에서 찾은 내용입니다.\n발언자: 홍길동\n회의일: 날짜 정보 없음\n회의: 제21대 국회 제400회 본회의\n내용: 발언 내용\n" ∧
    generate_accessible_context (fun _ => "날짜 정보 없음") [cDocInternal] ≠
      "\n1번째 정보 - 국회 회의록에서 찾은 내용입니다.\n발언자: 홍길동\n회의일: 날짜 정보 없음\n회의: 제21대 국회 제400회 본회의\n내용: 발언 내용\n"
        ++ "\n검색 결과 요약: 국회 회의록 1개, 최신 웹 정보 0개를 찾았습니다.\n" := by
  constructor
  · decide
  · decide

/-- Claim C7 (amended): the empty list renders to the fixed no-information
sentence; a non-empty list renders to the one-line aggregate summary of
internal and external counts followed by the numbered blocks in input
order; an internal document's block shows speaker, date and meeting
identifiers with the content, and an external or external_summary
document's block shows title and source name with the content. -/
theorem c7_context_rendering (dateFmt : Option String → String)
    (documents : List RetrievedDocument) :
    (documents = [] →
      generate_accessible_context dateFmt documents =
        "관련된 정보를 찾을 수 없습니다.") ∧
    (documents ≠ [] →
      generate_accessible_context dateFmt documents =
        contextSummary
            (documents.countP (fun d => d.source_type == "internal"))
            (documents.countP (fun d => pyStartsWith d.source_type "external"))
          ++ String.intercalate "\n"
              ((documents.enumFrom 1).map
                (fun p => contextBlock dateFmt p.1 p.2))) ∧
    (∀ (i : Nat) (d : RetrievedDocument), d.source_type = "internal" →
      contextBlock dateFmt i d =
        "\n" ++ toString i ++ "번째 정보 - 국회 회의록에서 찾은 내용입니다.\n발언자: "
          ++ (if d.position.getD "" = "" then d.speaker_name.getD "발언자 미상"
              else d.speaker_name.getD "발언자 미상" ++ " " ++ d.position.getD "")
          ++ "\n회의일: " ++ dateFmt d.minutes_date
          ++ "\n회의: 제" ++ d.assembly_number.getD "정보없음"
          ++ "대 국회 제" ++ d.session_number.getD "정보없음"
          ++ "회 " ++ d.minutes_type.getD "회의"
          ++ "\n내용: " ++ d.content ++ "\n") ∧
    (∀ (i : Nat) (d : RetrievedDocument),
      d.source_type = "external" ∨ d.source_type = "external_summary" →
      contextBlock dateFmt i d =
        "\n" ++ toString i ++ "번째 정보 - " ++ d.source_name.getD "웹 검색"
          ++ "에서 찾은 최신 정보입니다.\n제목: " ++ d.title.getD "제목 없음"
          ++ "\n내용: " ++ d.content ++ "\n") := by
  refine ⟨?_, ?_, ?_, ?_⟩
  · intro h
    rw [generate_accessible_context, if_pos h]
  · intro h
    rw [generate_accessible_context, if_neg h]
  · intro i d hd
    rw [contextBlock, if_pos hd]
  · intro i d hd
    rcases hd with h | h <;> rw [contextBlock, h] <;>
      rw [if_neg (by decide), if_pos (by decide)]

/-- Witness for C7: the amended rendering shape at concrete inputs — the
empty list, a one-document internal list, the internal block template at
the concrete document, and the external block template at a concrete
summary document. -/
theorem c7_context_rendering_witness :
    (generate_accessible_context (fun _ => "날짜 정보 없음") [] =
        "관련된 정보를 찾을 수 없습니다.") ∧
    (generate_accessible_context (fun _ => "날짜 정보 없음") [cDocInternal] =
      contextSummary
          ([cDocInternal].countP (fun d => d.source_type == "internal"))
          ([cDocInternal].countP (fun d => pyStartsWith d.source_type "external"))
        ++ String.intercalate "\n"
            (([cDocInternal].enumFrom 1).map
              (fun p => contextBlock (fun _ => "날짜 정보 없음") p.1 p.2))) ∧
    (contextBlock (fun _ => "날짜 정보 없음") 1 cDocInternal =
      "\n" ++ toString 1 ++ "번째 정보 - 국회 회의록에서 찾은 내용입니다.\n발언자: "
        ++ (if cDocInternal.position.getD "" = ""
            then cDocInternal.speaker_name.getD "발언자 미상"
            else cDocInternal.speaker_name.getD "발언자 미상" ++ " "
              ++ cDocInternal.position.getD "")
        ++ "\n회의일: " ++ (fun (_ : Option String) => "날짜 정보 없음") cDocInternal.minutes_date
        ++ "\n회의: 제" ++ cDocInternal.assembly_number.getD "정보없음"
        ++ "대 국회 제" ++ cDocInternal.session_number.getD "정보없음"
        ++ "회 " ++ cDocInternal.minutes_type.getD "회의"
        ++ "\n내용: " ++ cDocInternal.content ++ "\n") ∧
    (contextBlock (fun _ => "날짜 정보 없음") 2 (tavilySummaryDoc "질문" "요약") =
      "\n" ++ toString 2 ++ "번째 정보 - "
        ++ (tavilySummaryDoc "질문" "요약").source_name.getD "웹 검색"
        ++ "에서 찾은 최신 정보입니다.\n제목: "
        ++ (tavilySummaryDoc "질문" "요약").title.getD "제목 없음"
        ++ "\n내용: " ++ (tavilySummaryDoc "질문" "요약").content ++ "\n") := by
  refine ⟨(c7_context_rendering (fun _ => "날짜 정보 없음") []).1 rfl,
    (c7_context_rendering (fun _ => "날짜 정보 없음") [cDocInternal]).2.1
      (by decide),
    (c7_context_rendering (fun _ => "날짜 정보 없음") [cDocInternal]).2.2.1
      1 cDocInternal rfl,
    (c7_context_rendering (fun _ => "날짜 정보 없음") [cDocInternal]).2.2.2
      2 (tavilySummaryDoc "질문" "요약") (Or.inr rfl)⟩

/-- The preprocessing loop applies exactly the first matching entry of the
table, in table order, and leaves the query unchanged otherwise. -/
theorem expandLoop_eq_find (query : String) :
    ∀ tbl : List (String × String),
      expandLoop query tbl =
        match tbl.find? (fun p => pyIn p.1 query) with
        | some p => query ++ " " ++ p.2
        | none => query := by
  intro tbl
  induction tbl with
  | nil => simp [expandLoop]
  | cons p rest ih =>
    obtain ⟨key, expansion⟩ := p
    cases h : pyIn key query with
    | true => simp [expandLoop, List.find?_cons, h]
    | false => simp [expandLoop, List.find?_cons, h, ih]

/-- Claim C8: query expansion appends exactly the expansion phrase of the
first matching key in table definition order, separated by a space, and
returns the query unchanged when no key matches; the concrete query
저출산 문제 gains exactly the one expansion 저출생. -/
theorem c8_query_expansion :
    (∀ (query : String) (p : String × String),
      query_corrections.find? (fun e => pyIn e.1 query) = some p →
        _preprocess_query_for_context query = query ++ " " ++ p.2) ∧
    (∀ query : String,
      query_corrections.find? (fun e => pyIn e.1 query) = none →
        _preprocess_query_for_context query = query) ∧
    (∀ (query : String) (p : String × String),
      query_corrections_agent.find? (fun e => pyIn e.1 query) = some p →
        _preprocess_query_for_context_agent query = query ++ " " ++ p.2) ∧
    (∀ query : String,
      query_corrections_agent.find? (fun e => pyIn e.1 query) = none →
        _preprocess_query_for_context_agent query = query) ∧
    _preprocess_query_for_context "저출산 문제" = "저출산 문제 저출생" := by
  refine ⟨?_, ?_, ?_, ?_, by decide⟩
  · intro query p h
    unfold _preprocess_query_for_context
    rw [expandLoop_eq_find query query_corrections, h]
  · intro query h
    unfold _preprocess_query_for_context
    rw [expandLoop_eq_find query query_corrections, h]
  · intro query p h
    unfold _preprocess_query_for_context_agent
    rw [expandLoop_eq_find query query_corrections_agent, h]
  · intro query h
    unfold _preprocess_query_for_context_agent
    rw [expandLoop_eq_find query query_corrections_agent, h]

/-- Witness for C8: concrete matching and non-matching queries for both
tables. -/
theorem c8_query_expansion_witness :
    (query_corrections.find? (fun e => pyIn e.1 "저출산 문제") =
        some ("저출산", "저출생") ∧
      _preprocess_query_for_context "저출산 문제" =
        "저출산 문제" ++ " " ++ "저출생") ∧
    (query_corrections.find? (fun e => pyIn e.1 "안녕하세요") = none ∧
      _preprocess_query_for_context "안녕하세요" = "안녕하세요") ∧
    (query_corrections_agent.find? (fun e => pyIn e.1 "환경 정책") =
        some ("환경", "환경 기후변화 탄소중립 친환경") ∧
      _preprocess_query_for_context_agent "환경 정책" =
        "환경 정책" ++ " " ++ "환경 기후변화 탄소중립 친환경") ∧
    (query_corrections_agent.find? (fun e => pyIn e.1 "안녕하세요") = none ∧
      _preprocess_query_for_context_agent "안녕하세요" = "안녕하세요") := by
  refine ⟨⟨by decide, ?_⟩, ⟨by decide, ?_⟩, ⟨by decide, ?_⟩, ⟨by decide, ?_⟩⟩
  · exact c8_query_expansion.1 "저출산 문제" ("저출산", "저출생") (by decide)
  · exact c8_query_expansion.2.1 "안녕하세요" (by decide)
  · exact c8_query_expansion.2.2.1 "환경 정책"
      ("환경", "환경 기후변화 탄소중립 친환경") (by decide)
  · exact c8_query_expansion.2.2.2.1 "안녕하세요" (by decide)

/-- Claim C9: invoking the orchestrator on an empty (or all-whitespace)
query stops after the entry node with terminal label "no query" and a step
count of one, without executing the strategy, search or answer nodes. -/
theorem c9_empty_query_terminal
    (internalT externalT : String → Nat → List RetrievedDocument)
    (gen : AgentState → String) (query : String)
    (h : pyTruthyStripped query = false) :
    run_agent_graph internalT externalT gen (initial_state query) =
      ({ messages := [Message.human query], query := query, step_count := 1 },
       ["entry_node"], "no query") := by
  have hentry : entry_node (initial_state query) =
      { messages := [Message.human query], query := query, step_count := 1 } := rfl
  have hroute : route_after_entry
      { messages := [Message.human query], query := query, step_count := 1 } =
      "__end__" := by
    unfold route_after_entry
    rw [if_neg (by simp)]
    rw [if_neg ?_]
    intro hc
    rw [h] at hc
    exact Bool.false_ne_true hc.2
  simp only [run_agent_graph, hentry, hroute]
  rw [if_neg (by decide), if_neg (by simp)]

/-- Witness for C9: the empty query itself. -/
theorem c9_empty_query_terminal_witness :
    pyTruthyStripped "" = false ∧
    run_agent_graph (fun _ _ => []) (fun _ _ => []) (fun _ => "답변")
        (initial_state "") =
      ({ messages := [Message.human ""], query := "", step_count := 1 },
       ["entry_node"], "no query") :=
  ⟨rfl, c9_empty_query_terminal (fun _ _ => []) (fun _ _ => [])
    (fun _ => "답변") "" rfl⟩

/-- Claim C10: when the provider returns a truthy synthesized answer,
external_search prepends one summary document with source_type
external_summary and fixed score 1, so the result holds one document per
raw result plus one — at most `k + 1` when the provider honours the
requested `k`, and strictly more than `k` when it returns exactly `k` raw
results. -/
theorem c10_external_summary_extra_doc
    (p : String → Nat → Except String TavilyResponse)
    (query : String) (k : Nat) (resp : TavilyResponse) (answer : String)
    (hp : p query k = .ok resp) (ha : resp.answer = some answer)
    (hne : answer ≠ "") :
    external_search true p query k =
        tavilySummaryDoc query answer :: resp.results.map mkExternalDoc ∧
      (external_search true p query k).length = resp.results.length + 1 ∧
      (tavilySummaryDoc query answer).source_type = "external_summary" ∧
      (tavilySummaryDoc query answer).score = 1 ∧
      (resp.results.length ≤ k →
        (external_search true p query k).length ≤ k + 1) ∧
      (resp.results.length = k →
        k < (external_search true p query k).length) := by
  have hxs : external_search true p query k =
      tavilySummaryDoc query answer :: resp.results.map mkExternalDoc := by
    unfold external_search
    rw [if_neg (by decide), hp]
    simp [ha, hne]
  refine ⟨hxs, ?_, rfl, rfl, ?_, ?_⟩
  · rw [hxs]
    simp [List.length_map]
  · intro hk
    rw [hxs]
    simp [List.length_map]
    omega
  · intro hk
    rw [hxs]
    simp [List.length_map, hk]

/-- Witness for C10: a concrete provider response with one raw result and
a synthesized answer makes external_search return two documents for a
request of one. -/
theorem c10_external_summary_extra_doc_witness :
    ((fun (_ : String) (_ : Nat) =>
        (Except.ok (⟨some "요약", [⟨"본문", "제목", "주소", 0⟩]⟩ : TavilyResponse) :
          Except String TavilyResponse)) "질문" 1 =
      Except.ok ⟨some "요약", [⟨"본문", "제목", "주소", 0⟩]⟩ ∧
      ("요약" : String) ≠ "" ∧
      ((⟨some "요약", [⟨"본문", "제목", "주소", 0⟩]⟩ :
        TavilyResponse)).results.length = 1) ∧
    1 < (external_search true
        (fun _ _ => Except.ok ⟨some "요약", [⟨"본문", "제목", "주소", 0⟩]⟩)
        "질문" 1).length := by
  refine ⟨⟨rfl, by decide, rfl⟩, ?_⟩
  exact (c10_external_summary_extra_doc
    (fun _ _ => Except.ok ⟨some "요약", [⟨"본문", "제목", "주소", 0⟩]⟩)
    "질문" 1 ⟨some "요약", [⟨"본문", "제목", "주소", 0⟩]⟩ "요약"
    rfl rfl (by decide)).2.2.2.2.2 rfl

end AISearch
